import Mathlib

/-!
Shallow embedding of `src/download_helper.py`: a one-shot script that issues
an HTTP GET for a fixed URL, streams the body to a fixed destination file in
8192-byte chunks, and prints one of three console messages.

The script's interaction with the outside world (the HTTP response, possible
failures while opening or writing the destination file, the pre-existing file
at the destination path) is captured by a `World`; running the script is the
pure function `runScript : World → RunResult`.  The `with open(...)`
statement's guarantee that the file handle is closed on both the normal and
the exceptional exit is embedded by emitting a `closeFile` event after the
streaming loop on every path out of the `with` block, exactly as Python's
`with` semantics prescribe.
-/

namespace DownloadHelper

/-- A byte; the model does not need the 0..255 bound. -/
abbrev Byte := Nat

/-- A byte string (response body, file contents, one chunk). -/
abbrev Bytes := List Byte

/-- The hardcoded source URL (line 5 of the script). -/
def url : String := "https://media.roboflow.com/yolov8n.onnx"

/-- The hardcoded destination path (line 14 of the script). -/
def destPath : String := "public/yolov8n.onnx"

/-- Description attached to a raised error: either the HTTP status carried by
the `HTTPError` that `raise_for_status` raises, or free-form detail text for
connection / read / open / write failures. -/
inductive ErrInfo where
  | httpStatus (code : Nat)
  | detail (s : String)
deriving DecidableEq

/-- The two exception families the script can see: members of
`requests.exceptions.RequestException` and plain `IOError`s from file
open/write.  (In `requests`, `RequestException` is itself a subclass of
`IOError`; `isIOErrorExc` below reflects that.) -/
inductive Exc where
  | reqExc (e : ErrInfo)
  | ioExc (e : ErrInfo)
deriving DecidableEq

/-- The three console messages the script can emit. -/
inductive Msg where
  | success
  | httpError (e : ErrInfo)
  | ioError (e : ErrInfo)
deriving DecidableEq

/-- Observable events of one run, in order. -/
inductive Ev where
  | request
  | statusChecked (status : Nat)
  | openFile
  | writeChunk (c : Bytes)
  | closeFile
  | printed (m : Msg)
deriving DecidableEq

/-- Outcome of `requests.get(url, stream=True)`: either the request itself
fails (connection refused, timeout, ...) or a response arrives with a status
code, a body, and possibly a mid-stream read failure: `readErr = some (k, e)`
means the chunk iterator raises a `RequestException` with detail `e` when
asked for chunk number `k` (0-based). -/
inductive NetOutcome where
  | requestError (e : ErrInfo)
  | response (status : Nat) (body : Bytes) (readErr : Option (Nat × ErrInfo))
deriving DecidableEq

/-- Everything outside the script that determines one run:
the network outcome, whether `open(destPath, "wb")` raises an `IOError`,
whether `f.write` raises an `IOError` at chunk number `k`, and the
pre-existing contents of the destination file (`none` = no file). -/
structure World where
  net : NetOutcome
  openErr : Option ErrInfo
  writeErr : Option (Nat × ErrInfo)
  fs : Option Bytes
deriving DecidableEq

/-- `response.raise_for_status()` raises an `HTTPError` (a
`RequestException`) exactly for status codes 400–599. -/
def statusRaises (status : Nat) : Option ErrInfo :=
  if 400 ≤ status ∧ status < 600 then some (ErrInfo.httpStatus status) else none

/-- Structural worker for `iterContent`; the fuel is the body length, which
always suffices because each recursive step with a positive chunk size
shortens the body. A run outf fuel on a nonempty body yields that body as one
chunk, and a chunk size of 0 likewise yields one chunk; neither case arises
for the script's call, which uses chunk size 8192 and full fuel. -/
def iterContentFuel : Nat → Nat → Bytes → List Bytes
  | _, _, [] => []
  | 0, _, b => [b]
  | fuel+1, c, b =>
    if c = 0 then [b] else b.take c :: iterContentFuel fuel c (b.drop c)

/-- `response.iter_content(chunk_size=c)`: the body split into successive
chunks of at most `c` bytes (the last chunk may be shorter). -/
def iterContent (c : Nat) (body : Bytes) : List Bytes :=
  iterContentFuel body.length c body

/-- Does the error `o` (an optional chunk-indexed failure) fire at chunk
number `i`? -/
def errAt (o : Option (Nat × ErrInfo)) (i : Nat) : Option ErrInfo :=
  match o with
  | some (k, e) => if i = k then some e else none
  | none => none

/-- The `for chunk in response.iter_content(...): f.write(chunk)` loop.
At chunk number `i` the iterator may raise a `RequestException` (`re`), then
the write may raise an `IOError` (`we`); otherwise the chunk is appended to
the file.  Returns the file contents when the loop stops, the write events
emitted, and the exception that aborted the loop, if any. -/
def streamLoop (re we : Option (Nat × ErrInfo)) :
    List Bytes → Nat → Bytes → Bytes × List Ev × Option Exc
  | [], _, file => (file, [], none)
  | c :: rest, i, file =>
    match errAt re i with
    | some e => (file, [], some (Exc.reqExc e))
    | none =>
      match errAt we i with
      | some e => (file, [], some (Exc.ioExc e))
      | none =>
        let r := streamLoop re we rest (i+1) (file ++ c)
        (r.1, Ev.writeChunk c :: r.2.1, r.2.2)

/-- Result of the `try`-block body (lines 9–18): destination-file contents
afterwards, events emitted, and the exception propagating out, if any. -/
structure TryOut where
  file : Option Bytes
  events : List Ev
  exc : Option Exc
deriving DecidableEq

/-- Lines 9–18 of the script: `requests.get`, `raise_for_status`,
`with open(destPath, "wb") as f`, and the streaming loop.  Opening the file
in mode `"wb"` truncates it; the `with` statement closes the handle on both
the normal and the exceptional exit of its body, hence `Ev.closeFile` is
emitted on both paths out of the loop. -/
def tryBody (chunkSize : Nat) (w : World) : TryOut :=
  match w.net with
  | NetOutcome.requestError e =>
    { file := w.fs, events := [Ev.request], exc := some (Exc.reqExc e) }
  | NetOutcome.response status body re =>
    match statusRaises status with
    | some e =>
      { file := w.fs, events := [Ev.request, Ev.statusChecked status],
        exc := some (Exc.reqExc e) }
    | none =>
      match w.openErr with
      | some e =>
        { file := w.fs, events := [Ev.request, Ev.statusChecked status],
          exc := some (Exc.ioExc e) }
      | none =>
        let r := streamLoop re w.writeErr (iterContent chunkSize body) 0 []
        { file := some r.1,
          events := [Ev.request, Ev.statusChecked status, Ev.openFile]
            ++ r.2.1 ++ [Ev.closeFile],
          exc := r.2.2 }

/-- `isinstance(e, requests.exceptions.RequestException)`. -/
def isRequestExc : Exc → Bool
  | Exc.reqExc _ => true
  | Exc.ioExc _ => false

/-- `isinstance(e, IOError)`; true for both families because in `requests`
the class `RequestException` derives from `IOError`. -/
def isIOErrorExc : Exc → Bool
  | _ => true

/-- The description the handlers interpolate into their messages. -/
def excDetail : Exc → ErrInfo
  | Exc.reqExc e => e
  | Exc.ioExc e => e

/-- The `except` chain (lines 20–23), tried in source order:
first `except requests.exceptions.RequestException`, then `except IOError`.
Returns the message printed by the matching clause, or `none` if no clause
matches (the exception would escape uncaught). -/
def handleExc (exc : Exc) : Option Msg :=
  if isRequestExc exc then some (Msg.httpError (excDetail exc))
  else if isIOErrorExc exc then some (Msg.ioError (excDetail exc))
  else none

/-- Result of one whole run: destination-file contents, the event trace,
the console lines printed, and any exception that escaped uncaught. -/
structure RunResult where
  file : Option Bytes
  events : List Ev
  printedMsgs : List Msg
  uncaught : Option Exc
deriving DecidableEq

/-- The whole script with the chunk size as a parameter: the `try` block,
then on success the `print("Model downloaded ...")` (line 18), otherwise the
`except` chain. -/
def runScriptWith (chunkSize : Nat) (w : World) : RunResult :=
  let t := tryBody chunkSize w
  match t.exc with
  | none =>
    { file := t.file, events := t.events ++ [Ev.printed Msg.success],
      printedMsgs := [Msg.success], uncaught := none }
  | some exc =>
    match handleExc exc with
    | some m =>
      { file := t.file, events := t.events ++ [Ev.printed m],
        printedMsgs := [m], uncaught := none }
    | none =>
      { file := t.file, events := t.events, printedMsgs := [],
        uncaught := some exc }

/-- The script as written, with its hardcoded chunk size 8192. -/
def runScript (w : World) : RunResult := runScriptWith 8192 w

/-- A clean success world used by the concrete witnesses: status 200,
four-byte body, no failures, no pre-existing file. -/
def wSuccess : World :=
  { net := NetOutcome.response 200 [0, 1, 2, 3] none,
    openErr := none, writeErr := none, fs := none }

/-- A world whose chunk iterator raises a `RequestException` mid-stream,
after the status check succeeded: status 200, nonempty body, read failure at
chunk 0. -/
def wMidstreamRead : World :=
  { net := NetOutcome.response 200 [0, 1, 2] (some (0, ErrInfo.detail "connection reset")),
    openErr := none, writeErr := none, fs := none }

/-- A world whose `f.write` raises an `IOError` at chunk 0: status 200,
nonempty body, write failure. -/
def wWriteFail : World :=
  { net := NetOutcome.response 200 [0, 1, 2] none,
    openErr := none, writeErr := some (0, ErrInfo.detail "disk full"), fs := none }

/-- A world where `open(destPath, "wb")` raises an `IOError` although the
HTTP response succeeded. -/
def wOpenFail : World :=
  { net := NetOutcome.response 200 [0, 1, 2] none,
    openErr := some (ErrInfo.detail "Permission denied"), writeErr := none, fs := none }

/-- A world answering 404 with a pre-existing destination file. -/
def wHttp404 : World :=
  { net := NetOutcome.response 404 [70, 111] none,
    openErr := none, writeErr := none, fs := some [9, 9] }

/-- The success world again, but with the destination file already holding
the bytes the first run wrote: the starting state of a second run. -/
def wSecondRun : World :=
  { net := NetOutcome.response 200 [0, 1, 2, 3] none,
    openErr := none, writeErr := none, fs := some [0, 1, 2, 3] }

/-- A success world with an empty body. -/
def wEmptyBody : World :=
  { net := NetOutcome.response 200 [] none,
    openErr := none, writeErr := none, fs := some [5, 5, 5] }

/-! ### Helper lemmas -/

/-- Concatenating the chunks produced by the fuelled worker recovers the
body, for every fuel and every chunk size. -/
theorem iterContentFuel_join (fuel : Nat) (c : Nat) :
    ∀ b : Bytes, (iterContentFuel fuel c b).flatten = b := by
  induction fuel with
  | zero =>
    intro b
    cases b with
    | nil => rfl
    | cons x xs => simp [iterContentFuel]
  | succ fuel ih =>
    intro b
    cases b with
    | nil => rfl
    | cons x xs =>
      by_cases hc : c = 0
      · simp [iterContentFuel, hc]
      · simp [iterContentFuel, hc, ih]

/-- Concatenating the chunks of `iter_content` recovers the body. -/
theorem iterContent_join (c : Nat) (b : Bytes) : (iterContent c b).flatten = b :=
  iterContentFuel_join b.length c b

/-- With no read error and no write error, the streaming loop appends the
whole concatenated chunk list to the file, emits one write event per chunk,
and raises nothing. -/
theorem streamLoop_clean (cs : List Bytes) (i : Nat) (f : Bytes) :
    streamLoop none none cs i f = (f ++ cs.flatten, cs.map Ev.writeChunk, none) := by
  induction cs generalizing i f with
  | nil => simp [streamLoop]
  | cons c rest ih => simp [streamLoop, errAt, ih]

/-- Every event the streaming loop emits is a `writeChunk`. -/
theorem streamLoop_events_writeChunk (re we : Option (Nat × ErrInfo)) :
    ∀ (cs : List Bytes) (i : Nat) (f : Bytes),
      ∀ ev ∈ (streamLoop re we cs i f).2.1, ∃ ch, ev = Ev.writeChunk ch := by
  intro cs
  induction cs with
  | nil => intro i f ev h; simp [streamLoop] at h
  | cons c rest ih =>
    intro i f ev h
    simp only [streamLoop] at h
    cases hre : errAt re i with
    | some e => rw [hre] at h; simp at h
    | none =>
      rw [hre] at h
      cases hwe : errAt we i with
      | some e => rw [hwe] at h; simp at h
      | none =>
        rw [hwe] at h
        simp only [List.mem_cons] at h
        cases h with
        | inl h => exact ⟨c, h⟩
        | inr h => exact ih (i+1) (f ++ c) ev h

/-- The file contents the streaming loop leaves behind extend the initial
contents by some leading part of the concatenated chunk list. -/
theorem streamLoop_file_extends (re we : Option (Nat × ErrInfo)) :
    ∀ (cs : List Bytes) (i : Nat) (f : Bytes),
      ∃ p rest, (streamLoop re we cs i f).1 = f ++ p ∧ p ++ rest = cs.flatten := by
  intro cs
  induction cs with
  | nil => intro i f; exact ⟨[], [], by simp [streamLoop], rfl⟩
  | cons c rest ih =>
    intro i f
    simp only [streamLoop]
    cases hre : errAt re i with
    | some e => exact ⟨[], (c :: rest).flatten, by simp, rfl⟩
    | none =>
      cases hwe : errAt we i with
      | some e => exact ⟨[], (c :: rest).flatten, by simp, rfl⟩
      | none =>
        obtain ⟨p, tail, hfile, hjoin⟩ := ih (i+1) (f ++ c)
        exact ⟨c ++ p, tail, by simp [hfile], by simp [← hjoin, List.flatten_cons]⟩

/-- On the clean success path (success status, no open, write or read
failure), the `try` block writes exactly the body, emits the full event
sequence, and raises nothing. -/
theorem tryBody_clean (c : Nat) (w : World) (status : Nat) (body : Bytes)
    (hnet : w.net = NetOutcome.response status body none)
    (hst : statusRaises status = none)
    (hopen : w.openErr = none) (hwrite : w.writeErr = none) :
    tryBody c w =
      { file := some body,
        events := [Ev.request, Ev.statusChecked status, Ev.openFile]
          ++ (iterContent c body).map Ev.writeChunk ++ [Ev.closeFile],
        exc := none } := by
  simp only [tryBody, hnet, hst, hopen, hwrite, streamLoop_clean,
    iterContent_join, List.nil_append]

/-- Every raised exception is caught by one of the two `except` clauses. -/
theorem handleExc_total (exc : Exc) : ∃ m, handleExc exc = some m := by
  cases exc with
  | reqExc e => exact ⟨Msg.httpError e, rfl⟩
  | ioExc e => exact ⟨Msg.ioError e, rfl⟩

/-- The destination-file contents are whatever the `try` block left: the
`except` handlers never touch the file. -/
theorem runScriptWith_file (c : Nat) (w : World) :
    (runScriptWith c w).file = (tryBody c w).file := by
  unfold runScriptWith
  cases hexc : (tryBody c w).exc with
  | none => simp [hexc]
  | some exc =>
    obtain ⟨m, hm⟩ := handleExc_total exc
    simp [hexc, hm]

/-- If the streaming loop never emits an event of shape `ev`, its count in
the loop's event list is zero; holds for any event that is not a
`writeChunk`. -/
theorem streamLoop_count_zero (re we : Option (Nat × ErrInfo))
    (cs : List Bytes) (i : Nat) (f : Bytes) (ev : Ev)
    (hev : ∀ ch, ev ≠ Ev.writeChunk ch) :
    ((streamLoop re we cs i f).2.1).count ev = 0 := by
  rw [List.count_eq_zero]
  intro hmem
  obtain ⟨ch, rfl⟩ := streamLoop_events_writeChunk re we cs i f ev hmem
  exact hev ch rfl

/-- When the status check passes and the open succeeds, the `try` block is
the streaming loop wrapped in the open/close events. -/
theorem tryBody_opened (csz : Nat) (w : World) (status : Nat) (body : Bytes)
    (re : Option (Nat × ErrInfo))
    (hnet : w.net = NetOutcome.response status body re)
    (hst : statusRaises status = none) (hopen : w.openErr = none) :
    tryBody csz w =
      { file := some (streamLoop re w.writeErr (iterContent csz body) 0 []).1,
        events := [Ev.request, Ev.statusChecked status, Ev.openFile]
          ++ (streamLoop re w.writeErr (iterContent csz body) 0 []).2.1
          ++ [Ev.closeFile],
        exc := (streamLoop re w.writeErr (iterContent csz body) 0 []).2.2 } := by
  simp only [tryBody, hnet, hst, hopen]

/-! ### Claims -/

/-- C1: on the success path — success status and byte body `body`, with no
open, write or read failure — the destination file's final contents are the
concatenation of all chunks yielded by the streaming iterator, equal to the
body byte-for-byte, with the file's byte-length equal to the body's
byte-length; the success message is printed. -/
theorem C1_success_writes_body (w : World) (status : Nat) (body : Bytes)
    (hnet : w.net = NetOutcome.response status body none)
    (hst : statusRaises status = none)
    (hopen : w.openErr = none) (hwrite : w.writeErr = none) :
    (runScript w).file = some (iterContent 8192 body).flatten ∧
    (runScript w).file = some body ∧
    ((runScript w).file.getD []).length = body.length ∧
    (runScript w).printedMsgs = [Msg.success] := by
  have h := tryBody_clean 8192 w status body hnet hst hopen hwrite
  unfold runScript runScriptWith
  rw [h]
  simp [iterContent_join]

/-- C1 witness: a concrete success world with a four-byte body. -/
theorem C1_success_writes_body_witness :
    (runScript wSuccess).file = some (iterContent 8192 [0, 1, 2, 3]).flatten ∧
    (runScript wSuccess).file = some [0, 1, 2, 3] ∧
    ((runScript wSuccess).file.getD []).length = 4 ∧
    (runScript wSuccess).printedMsgs = [Msg.success] :=
  C1_success_writes_body wSuccess 200 [0, 1, 2, 3] rfl (by decide) rfl rfl

/-- C2: a 4xx/5xx status makes `raise_for_status` raise before the file is
opened: the destination file keeps its pre-existing state, the file is never
opened, and the network-error message (carrying the status) is emitted. -/
theorem C2_http_failure_no_write (w : World) (status : Nat) (body : Bytes)
    (re : Option (Nat × ErrInfo)) (e : ErrInfo)
    (hnet : w.net = NetOutcome.response status body re)
    (hst : statusRaises status = some e) :
    (runScript w).file = w.fs ∧
    Ev.openFile ∉ (runScript w).events ∧
    (runScript w).printedMsgs = [Msg.httpError e] := by
  simp only [runScript, runScriptWith, tryBody, hnet, hst]
  simp [handleExc, isRequestExc, excDetail]

/-- C2 witness: a 404 response over a pre-existing destination file. -/
theorem C2_http_failure_no_write_witness :
    (runScript wHttp404).file = wHttp404.fs ∧
    Ev.openFile ∉ (runScript wHttp404).events ∧
    (runScript wHttp404).printedMsgs = [Msg.httpError (ErrInfo.httpStatus 404)] :=
  C2_http_failure_no_write wHttp404 404 [70, 111] none (ErrInfo.httpStatus 404)
    rfl (by decide)

/-- C3: chunking transparency — on the success path, the final destination
file contents with any positive chunk size equal those with the script's
chunk size 8192. -/
theorem C3_chunk_size_transparent (csz : Nat) (w : World) (status : Nat)
    (body : Bytes) (hc : 0 < csz)
    (hnet : w.net = NetOutcome.response status body none)
    (hst : statusRaises status = none)
    (hopen : w.openErr = none) (hwrite : w.writeErr = none) :
    (runScriptWith csz w).file = (runScript w).file := by
  have h1 := tryBody_clean csz w status body hnet hst hopen hwrite
  have h2 := tryBody_clean 8192 w status body hnet hst hopen hwrite
  unfold runScript
  rw [runScriptWith_file, runScriptWith_file, h1, h2]

/-- C3 witness: chunk size 1 gives the same file as chunk size 8192 on the
concrete success world. -/
theorem C3_chunk_size_transparent_witness :
    (runScriptWith 1 wSuccess).file = (runScript wSuccess).file :=
  C3_chunk_size_transparent 1 wSuccess 200 [0, 1, 2, 3] (by decide) rfl
    (by decide) rfl rfl

/-- C4 counterexample: in the world `wMidstreamRead` the status check has
passed and the file has been opened (so the failure happens during the
STREAMING phase), the raised exception is a `RequestException` from the
chunk iterator, and the run prints the network-error message — not the
file-write (IoError) message the claim requires for every streaming-phase
failure. -/
theorem C4_counterexample_midstream_read :
    Ev.openFile ∈ (runScript wMidstreamRead).events ∧
    (tryBody 8192 wMidstreamRead).exc
      = some (Exc.reqExc (ErrInfo.detail "connection reset")) ∧
    (runScript wMidstreamRead).printedMsgs
      = [Msg.httpError (ErrInfo.detail "connection reset")] ∧
    ¬ ∃ e, (runScript wMidstreamRead).printedMsgs = [Msg.ioError e] := by
  refine ⟨by decide, by decide, by decide, ?_⟩
  rintro ⟨e, he⟩
  have hmsgs : (runScript wMidstreamRead).printedMsgs
      = [Msg.httpError (ErrInfo.detail "connection reset")] := by decide
  rw [hmsgs] at he
  simp at he

/-- C4 (amended): once the status check has passed and the file has been
opened, a failure during streaming is reported by the exception's kind, not
by the phase: a write failure (`IOError`) produces the file-write error
message, while a mid-stream read failure (`RequestException`) produces the
network-error message. -/
theorem C4_amended_stream_failure_by_kind (w : World) (e : ErrInfo)
    (hopened : Ev.openFile ∈ (runScript w).events) :
    ((tryBody 8192 w).exc = some (Exc.ioExc e) →
      (runScript w).printedMsgs = [Msg.ioError e]) ∧
    ((tryBody 8192 w).exc = some (Exc.reqExc e) →
      (runScript w).printedMsgs = [Msg.httpError e]) := by
  constructor
  · intro hexc
    simp only [runScript, runScriptWith, hexc]
    simp [handleExc, isRequestExc, isIOErrorExc, excDetail]
  · intro hexc
    simp only [runScript, runScriptWith, hexc]
    simp [handleExc, isRequestExc, excDetail]

/-- C4 amended-claim witness: a concrete write failure during streaming is
reported with the file-write error message. -/
theorem C4_amended_stream_failure_by_kind_witness :
    (runScript wWriteFail).printedMsgs = [Msg.ioError (ErrInfo.detail "disk full")] :=
  (C4_amended_stream_failure_by_kind wWriteFail (ErrInfo.detail "disk full")
    (by decide)).1 (by decide)

/-- C5: the destination file handle is released on every exit path — in
every run, with any chunk size, the event trace holds exactly as many
`closeFile` events as `openFile` events (both 0 when the open was never
reached or itself failed, both 1 as soon as the file was opened, whether the
streaming loop completed or raised). -/
theorem C5_handle_always_closed (csz : Nat) (w : World) :
    (runScriptWith csz w).events.count Ev.openFile
      = (runScriptWith csz w).events.count Ev.closeFile := by
  have htry : (tryBody csz w).events.count Ev.openFile
      = (tryBody csz w).events.count Ev.closeFile := by
    rcases hnet : w.net with e | ⟨status, body, re⟩
    · simp [tryBody, hnet]
    · rcases hst : statusRaises status with _ | e
      · rcases hopen : w.openErr with _ | e
        · rw [tryBody_opened csz w status body re hnet hst hopen]
          have h1 := streamLoop_count_zero re w.writeErr
            (iterContent csz body) 0 [] Ev.openFile (by intro ch h; cases h)
          have h2 := streamLoop_count_zero re w.writeErr
            (iterContent csz body) 0 [] Ev.closeFile (by intro ch h; cases h)
          simp [List.count_append, List.count_cons, h1, h2]
        · simp [tryBody, hnet, hst, hopen]
      · simp [tryBody, hnet, hst]
  unfold runScriptWith
  cases hexc : (tryBody csz w).exc with
  | none => simp [hexc, List.count_append, htry]
  | some exc =>
    obtain ⟨m, hm⟩ := handleExc_total exc
    simp [hexc, hm, List.count_append, htry]

/-- C6: whenever an `IOError` is raised (destination unwritable at open, or
a write failure), the run prints the file-write error message carrying that
error's description, and no exception escapes uncaught. -/
theorem C6_io_error_handled (w : World) (e : ErrInfo)
    (hexc : (tryBody 8192 w).exc = some (Exc.ioExc e)) :
    (runScript w).printedMsgs = [Msg.ioError e] ∧
    (runScript w).uncaught = none := by
  simp only [runScript, runScriptWith, hexc]
  simp [handleExc, isRequestExc, isIOErrorExc, excDetail]

/-- C6 witness: the open fails with "Permission denied" although the HTTP
response succeeded. -/
theorem C6_io_error_handled_witness :
    (runScript wOpenFail).printedMsgs
      = [Msg.ioError (ErrInfo.detail "Permission denied")] ∧
    (runScript wOpenFail).uncaught = none :=
  C6_io_error_handled wOpenFail (ErrInfo.detail "Permission denied") (by decide)

/-- C7: idempotence — a second clean run against the same response, started
from whatever file state the first run left behind, overwrites the existing
file and produces identical destination contents, namely the body. -/
theorem C7_second_run_identical (w w2 : World) (status : Nat) (body : Bytes)
    (hnet : w.net = NetOutcome.response status body none)
    (hnet2 : w2.net = w.net)
    (hst : statusRaises status = none)
    (hopen : w.openErr = none) (hwrite : w.writeErr = none)
    (hopen2 : w2.openErr = none) (hwrite2 : w2.writeErr = none)
    (hfs2 : w2.fs = (runScript w).file) :
    (runScript w2).file = (runScript w).file ∧
    (runScript w).file = some body := by
  have h1 := tryBody_clean 8192 w status body hnet hst hopen hwrite
  have h2 := tryBody_clean 8192 w2 status body (by rw [hnet2, hnet]) hst hopen2 hwrite2
  unfold runScript
  rw [runScriptWith_file, runScriptWith_file, h1, h2]
  exact ⟨rfl, rfl⟩

/-- C7 witness: the second run starts from the file the first run wrote and
leaves the same four bytes. -/
theorem C7_second_run_identical_witness :
    (runScript wSecondRun).file = (runScript wSuccess).file ∧
    (runScript wSuccess).file = some [0, 1, 2, 3] :=
  C7_second_run_identical wSuccess wSecondRun 200 [0, 1, 2, 3] rfl rfl
    (by decide) rfl rfl rfl rfl (by decide)

/-- C8: every run prints exactly one console message, no exception escapes
the two `except` clauses, and the success message is printed exactly when
the `try` block raised nothing. -/
theorem C8_exactly_one_message (csz : Nat) (w : World) :
    (runScriptWith csz w).printedMsgs.length = 1 ∧
    (runScriptWith csz w).uncaught = none ∧
    ((runScriptWith csz w).printedMsgs = [Msg.success]
      ↔ (tryBody csz w).exc = none) := by
  unfold runScriptWith
  cases hexc : (tryBody csz w).exc with
  | none => simp [hexc]
  | some exc =>
    cases exc with
    | reqExc e => simp [hexc, handleExc, isRequestExc, excDetail]
    | ioExc e => simp [hexc, handleExc, isRequestExc, isIOErrorExc, excDetail]

/-- C9: on a failing run that got past the status check and the open, the
error handlers neither delete nor roll back the destination file: the run's
final file is exactly what the `try` block left, and it holds a leading part
of the body (the chunks written before the failure). -/
theorem C9_partial_file_left (w : World) (status : Nat) (body : Bytes)
    (re : Option (Nat × ErrInfo))
    (hnet : w.net = NetOutcome.response status body re)
    (hst : statusRaises status = none) (hopen : w.openErr = none)
    (hexc : (tryBody 8192 w).exc ≠ none) :
    (runScript w).file = (tryBody 8192 w).file ∧
    ∃ p rest, (runScript w).file = some p ∧ p ++ rest = body := by
  refine ⟨runScriptWith_file 8192 w, ?_⟩
  obtain ⟨p, rest, hfile, hjoin⟩ := streamLoop_file_extends re w.writeErr
    (iterContent 8192 body) 0 []
  refine ⟨p, rest, ?_, by rw [hjoin, iterContent_join]⟩
  show (runScriptWith 8192 w).file = some p
  rw [runScriptWith_file 8192 w, tryBody_opened 8192 w status body re hnet hst hopen]
  simpa using congrArg some hfile

/-- C9 witness: a write failure at the first chunk leaves an empty (created,
truncated) destination file untouched by the handlers. -/
theorem C9_partial_file_left_witness :
    (runScript wWriteFail).file = (tryBody 8192 wWriteFail).file ∧
    ∃ p rest, (runScript wWriteFail).file = some p ∧ p ++ rest = [0, 1, 2] :=
  C9_partial_file_left wWriteFail 200 [0, 1, 2] none rfl (by decide) rfl (by decide)

/-- C10: a success status with an empty body yields no chunks from the
iterator; the destination file is still created and truncated to zero bytes,
and the success message is printed. -/
theorem C10_empty_body_creates_file (w : World) (status : Nat)
    (re : Option (Nat × ErrInfo))
    (hnet : w.net = NetOutcome.response status [] re)
    (hst : statusRaises status = none) (hopen : w.openErr = none) :
    iterContent 8192 [] = [] ∧
    (runScript w).file = some [] ∧
    (runScript w).printedMsgs = [Msg.success] := by
  have h := tryBody_opened 8192 w status [] re hnet hst hopen
  unfold runScript runScriptWith
  rw [h]
  simp [iterContent, iterContentFuel, streamLoop]

/-- C10 witness: an empty body over a pre-existing three-byte file leaves a
zero-byte file and prints success. -/
theorem C10_empty_body_creates_file_witness :
    iterContent 8192 [] = [] ∧
    (runScript wEmptyBody).file = some [] ∧
    (runScript wEmptyBody).printedMsgs = [Msg.success] :=
  C10_empty_body_creates_file wEmptyBody 200 none rfl (by decide) rfl

end DownloadHelper
